import Mathlib

/-!
Verification of the DiscordBot bridge (`index.mjs`, strict-answers revision).

The source file under scrutiny is a JavaScript module.  We shallowly embed the
logic the specification talks about:

* text is modelled as `List Char`; JavaScript `.length` counts UTF-16 code
  units while we count characters — identical on the ASCII data the claims
  use, and every truncation bound proved here uses the same unit on both
  sides of the comparison, so the bounds are unit-uniform;
* JavaScript numbers are modelled as `ℚ`; a field whose `Number(...)`
  coercion is finite is `some q`, and `none` stands for an absent field or a
  non-finite coercion (`NaN`, `±Infinity`);
* nondeterministic effects (the HTTP fetch, `JSON.parse`, the random id
  generator) are passed in as explicit values describing their outcome.
-/

/-- The set accepted by JavaScript `\s` (and by `String.prototype.trim`):
WhiteSpace plus LineTerminator code points. -/
def jsWhitespace (c : Char) : Bool :=
  c == ' ' || c == '\t' || c == '\n' || c == '\r' ||
  c == Char.ofNat 0x0b || c == Char.ofNat 0x0c ||
  c == Char.ofNat 0xa0 || c == Char.ofNat 0x1680 ||
  (0x2000 ≤ c.toNat && c.toNat ≤ 0x200a) ||
  c == Char.ofNat 0x2028 || c == Char.ofNat 0x2029 ||
  c == Char.ofNat 0x202f || c == Char.ofNat 0x205f ||
  c == Char.ofNat 0x3000 || c == Char.ofNat 0xfeff

/-- JavaScript `String.prototype.trim`. -/
def jsTrim (l : List Char) : List Char :=
  ((l.dropWhile jsWhitespace).reverse.dropWhile jsWhitespace).reverse

/-- JavaScript `String.prototype.toLowerCase`, restricted to the ASCII range
(the only case-carrying characters the claims exercise). -/
def jsToLower (l : List Char) : List Char :=
  l.map Char.toLower

/-- `s.startsWith(p)`. -/
def startsWithL (s p : List Char) : Bool :=
  s.take p.length == p

/-- `s.includes(pat)`. -/
def containsL (s pat : List Char) : Bool :=
  match s with
  | [] => startsWithL [] pat
  | _ :: rest => startsWithL s pat || containsL rest pat

/-! ### A small regular-expression engine

The strict gate tests the answer text against thirteen fixed regular
expressions.  We embed exactly the constructs those patterns use:
literal characters (case-insensitive, the `i` flag), character classes,
concatenation, alternation and `\s+`.  Matching is by Brzozowski
derivatives; `reTest` searches for a match anywhere in the string, like
`RegExp.prototype.test`. -/

inductive RE where
  | emp : RE
  | eps : RE
  | tok : (Char → Bool) → RE
  | seq : RE → RE → RE
  | alt : RE → RE → RE
  | star : RE → RE

def RE.nullable : RE → Bool
  | .emp => false
  | .eps => true
  | .tok _ => false
  | .seq a b => a.nullable && b.nullable
  | .alt a b => a.nullable || b.nullable
  | .star _ => true

/-- Smart constructors keep derivatives small; they only simplify by the
`∅`/`ε` identities. -/
def RE.mkSeq : RE → RE → RE
  | .emp, _ => .emp
  | _, .emp => .emp
  | .eps, b => b
  | a, .eps => a
  | a, b => .seq a b

def RE.mkAlt : RE → RE → RE
  | .emp, b => b
  | a, .emp => a
  | a, b => .alt a b

def RE.deriv : RE → Char → RE
  | .emp, _ => .emp
  | .eps, _ => .emp
  | .tok p, c => if p c then .eps else .emp
  | .seq a b, c =>
      if a.nullable then RE.mkAlt (RE.mkSeq (a.deriv c) b) (b.deriv c)
      else RE.mkSeq (a.deriv c) b
  | .alt a b, c => RE.mkAlt (a.deriv c) (b.deriv c)
  | .star a, c => RE.mkSeq (a.deriv c) (.star a)

/-- Does `r` match some (possibly empty) prefix of `l`? -/
def RE.matchesPre : RE → List Char → Bool
  | r, [] => r.nullable
  | r, c :: cs => r.nullable || (r.deriv c).matchesPre cs

/-- `RegExp.prototype.test`: does `r` match anywhere inside `l`? -/
def reTest (r : RE) : List Char → Bool
  | [] => r.matchesPre []
  | c :: cs => r.matchesPre (c :: cs) || reTest r cs

/-- A case-insensitive literal character (the `i` flag; with no `u` flag,
canonicalisation never maps a non-ASCII character onto an ASCII letter, so
ASCII folding is exact for these all-ASCII patterns). -/
def litCI (c : Char) : RE :=
  .tok (fun ch => ch.toLower == c)

/-- A case-insensitive literal word. -/
def reWord (s : String) : RE :=
  s.toList.foldr (fun c r => .seq (litCI c) r) .eps

/-- `\s+`. -/
def ws1 : RE :=
  .seq (.tok jsWhitespace) (.star (.tok jsWhitespace))

/-- The character class `['’]` (ASCII apostrophe or U+2019). -/
def apos : RE :=
  .tok (fun ch => ch == Char.ofNat 0x27 || ch == Char.ofNat 0x2019)

/-- A bare ASCII apostrophe (used un-classed in one pattern). -/
def apos1 : RE :=
  .tok (fun ch => ch == Char.ofNat 0x27)

def reSeq (l : List RE) : RE :=
  l.foldr .seq .eps

/-- The thirteen `FALLBACK_PATTERNS` regular expressions of the source, in
order. -/
def FALLBACK_PATTERNS : List RE := [
  reSeq [reWord "i", ws1, reWord "don", apos, reWord "t", ws1, reWord "know"],
  reSeq [reWord "not", ws1, reWord "sure"],
  reSeq [reWord "please", ws1, reWord "clarify"],
  reSeq [reWord "can", ws1, reWord "you", ws1, reWord "clarify"],
  reSeq [reWord "i", ws1, reWord "could", ws1, reWord "not", ws1, reWord "find"],
  reSeq [reWord "couldn", apos, reWord "t", ws1, reWord "find"],
  reSeq [reWord "no", ws1, reWord "information"],
  reWord "unsure",
  reSeq [reWord "as", ws1, reWord "an", ws1, reWord "ai"],
  reSeq [reWord "i", ws1, reWord "do", ws1, reWord "not", ws1, reWord "have",
         ws1, reWord "enough", ws1, reWord "context"],
  reSeq [reWord "i", ws1, reWord "can",
         .alt (reWord "not") (.seq apos1 (reWord "t")),
         ws1, reWord "help", ws1, reWord "with", ws1, reWord "that"],
  reSeq [reWord "try", ws1, reWord "again"],
  reWord "rephrase"]

/-- `FALLBACK_PATTERNS.some(re => re.test(t))`. -/
def fallbackMatch (t : List Char) : Bool :=
  FALLBACK_PATTERNS.any (fun re => reTest re t)

/-! ### Gate configuration and the strict gate -/

/-- The process-wide tuning values `STRICT`, `MIN_SRC`, `MIN_LEN`,
`MIN_CONF` derived from the environment at startup. -/
structure GateConfig where
  strict : Bool
  minSrc : Nat
  minLen : Nat
  minConf : ℚ

/-- The configuration produced by the documented environment defaults
(`STRICT_ANSWERS='true'`, `MIN_SOURCES='1'`, `MIN_ANSWER_CHARS='40'`,
`MIN_CONFIDENCE='0.35'`). -/
def defaultCfg : GateConfig :=
  { strict := true, minSrc := 1, minLen := 40, minConf := mkRat 7 20 }

/-- `looksLikeFallback(text)`. -/
def looksLikeFallback (cfg : GateConfig) (text : List Char) : Bool :=
  if text = [] then true
  else
    let t := jsTrim text
    if t.length = 0 then true
    else if t.length < cfg.minLen then true
    else fallbackMatch t

/-! ### The answer-event data model -/

/-- A JavaScript field value as seen through the `??` nullish-coalescing
chain of `extractConfidence`'s source loop: either nullish
(`null`/`undefined`), or a present value together with what `Number(...)`
makes of it (`some q` when finite, `none` when not). -/
inductive SVal where
  | nullish : SVal
  | val : Option ℚ → SVal
deriving DecidableEq

/-- A source citation record.  `title`/`url` are `none` when absent (we do
not model non-string values there; the handlers would stringify or throw on
them).  The three score-like fields feed the `??` chain. -/
structure Source where
  title : Option (List Char)
  url : Option (List Char)
  score : SVal
  confidence : SVal
  similarity : SVal
deriving DecidableEq

/-- The payload of an answer event.  Each enumerated confidence candidate
field is recorded as `Number(field)` when that is finite, `none` otherwise
(absent fields coerce to `NaN`).  `sources` is `none` when the field is
missing or not an array; array entries that are falsy are `none`. -/
structure EventData where
  answer : Option (List Char)
  sources : Option (List (Option Source))
  confidence : Option ℚ
  score : Option ℚ
  relevance : Option ℚ
  similarity : Option ℚ
  lookup_score : Option ℚ
deriving DecidableEq

/-- An event record of the parsed response array; `data` is `none` when the
`data` property is nullish. -/
structure EventRec where
  event : Option (List Char)
  data : Option EventData
deriving DecidableEq

/-- The `{}` default of `candidate?.data || {}`. -/
def emptyData : EventData :=
  { answer := none, sources := none, confidence := none, score := none,
    relevance := none, similarity := none, lookup_score := none }

def dataOf (candidate : Option EventRec) : EventData :=
  (candidate.bind (fun r => r.data)).getD emptyData

/-- `Number(s?.score ?? s?.confidence ?? s?.similarity)` for one source. -/
def srcNum (s : Source) : Option ℚ :=
  match s.score with
  | .val n => n
  | .nullish =>
    match s.confidence with
    | .val n => n
    | .nullish =>
      match s.similarity with
      | .val n => n
      | .nullish => none

/-- The five payload candidates of `extractConfidence`, in source order. -/
def payloadCands (candidate : Option EventRec) : List (Option ℚ) :=
  let d := dataOf candidate
  [d.confidence, d.score, d.relevance, d.similarity, d.lookup_score]

/-- The `Array.isArray(d.sources) ? d.sources : []` view of the payload. -/
def sourcesOf (candidate : Option EventRec) : List (Option Source) :=
  (dataOf candidate).sources.getD []

/-- `extractConfidence(candidate)`: the payload candidates in order, then
each source's `??` chain; the first finite value wins, `none` plays `NaN`. -/
def extractConfidence (candidate : Option EventRec) : Option ℚ :=
  match (payloadCands candidate).findSome? id with
  | some n => some n
  | none => (sourcesOf candidate).findSome? (fun s => s.bind srcNum)

/-- `normalizeConfidence(x)`: `NaN` stays `NaN`; a value above 1 is read on
the 0–100 scale. -/
def normalizeConfidence (x : Option ℚ) : Option ℚ :=
  x.map (fun q => if 1 < q then q / 100 else q)

/-- `Array.isArray(sources) ? sources.filter(Boolean) : []`. -/
def srcFiltered (sources : Option (List (Option Source))) : List Source :=
  match sources with
  | some l => l.filterMap id
  | none => []

/-- `passesStrictGate(answer, sources, chosen)`. -/
def passesStrictGate (cfg : GateConfig) (answer : List Char)
    (sources : Option (List (Option Source))) (chosen : Option EventRec) : Bool :=
  if cfg.strict = false then true
  else if looksLikeFallback cfg answer = true then false
  else if 0 < cfg.minSrc ∧ (srcFiltered sources).length < cfg.minSrc then false
  else
    match normalizeConfidence (extractConfidence chosen) with
    | some conf => if conf < cfg.minConf then false else true
    | none => true

/-! ### The answering client `askDocsBot` -/

def lookupTag : List Char := "lookup_answer".toList
def answerTag : List Char := "answer".toList

/-- `e?.event === tag` for an array element (which may be null). -/
def hasTag (e : Option EventRec) (tag : List Char) : Bool :=
  match e with
  | some r => r.event == some tag
  | none => false

/-- `lookup || simple || events[0]`: the two `find` calls return the
element or `undefined`; a found element is necessarily truthy, and when
both misses the (possibly null or absent) first array element is taken —
null and undefined coincide as `none` since `chosen` is only consumed
through optional chaining. -/
def chooseEvent (events : List (Option EventRec)) : Option EventRec :=
  match events.find? (fun e => hasTag e lookupTag) with
  | some e => e
  | none =>
    match events.find? (fun e => hasTag e answerTag) with
    | some e => e
    | none => events.head?.join

/-- `chosen?.data?.answer?.trim() || ''` (the `|| ''` only converts an
all-whitespace trim result to the empty string, which `jsTrim` already
yields; a non-string `answer` value would throw into the enclosing catch
and is not modelled). -/
def extractAnswer (chosen : Option EventRec) : List Char :=
  match (chosen.bind (fun r => r.data)).bind (fun d => d.answer) with
  | some a => jsTrim a
  | none => []

/-- `Array.isArray(chosen?.data?.sources) ? chosen.data.sources : []`. -/
def extractSources (chosen : Option EventRec) : List (Option Source) :=
  match (chosen.bind (fun r => r.data)).bind (fun d => d.sources) with
  | some l => l
  | none => []

/-- The outcome of the single outbound `fetch` plus `JSON.parse`:
`networkError` covers a rejected fetch, including the 20-second abort;
`httpError` is a response with `res.ok` false (its body is only logged);
`success` carries the body text and, for bodies that are consulted past the
empty/`"null"` check, the outcome of `JSON.parse` — `.error` covers both a
parse exception and a parse result that is not an array (on which
`events.find` throws); either lands in the same catch. -/
inductive FetchOutcome where
  | networkError : FetchOutcome
  | httpError : Nat → FetchOutcome
  | success : List Char → Except Unit (List (Option EventRec)) → FetchOutcome

/-- The record `askDocsBot` resolves with; the two non-parse paths return
an object literal without a `chosen` property, modelled as `none`. -/
structure AskResult where
  ok : Bool
  answer : List Char
  sources : List (Option Source)
  chosen : Option EventRec
deriving DecidableEq

/-- `{ ok: false, answer: '', sources: [] }`. -/
def noAnswerResult : AskResult :=
  { ok := false, answer := [], sources := [], chosen := none }

/-- `askDocsBot(question, userId)` as a function of the fetch outcome: the
non-ok throw, the rejected fetch and the parse throw all reach the catch,
which returns the uniform no-answer record. -/
def askDocsBot (cfg : GateConfig) (outcome : FetchOutcome) : AskResult :=
  match outcome with
  | .networkError => noAnswerResult
  | .httpError _ => noAnswerResult
  | .success body parsed =>
    if body == [] || body == "null".toList then noAnswerResult
    else
      match parsed with
      | .error _ => noAnswerResult
      | .ok events =>
        let chosen := chooseEvent events
        let answer := extractAnswer chosen
        let sources := extractSources chosen
        { ok := passesStrictGate cfg answer (some sources) chosen,
          answer := answer, sources := sources, chosen := chosen }

/-! ### Response formatting -/

/-- `x || d` for an optional string against a non-empty literal default. -/
def strOrDefault (x : Option (List Char)) (d : List Char) : List Char :=
  match x with
  | some t => if t = [] then d else t
  | none => d

/-- `` `• [${s.title || 'Source'}](${s.url || '#'})` ``. -/
def fmtSource (s : Source) : List Char :=
  "• [".toList ++ strOrDefault s.title ("Source".toList) ++
  "](".toList ++ strOrDefault s.url ("#".toList) ++ ")".toList

/-- `answer.slice(0, 4000)`: the rich-embed description. -/
def richDescription (answer : List Char) : List Char :=
  answer.take 4000

/-- `sources.slice(0, 5).map(...)`: the rendered per-source lines (a null
array entry would throw `s.title` into the handler's catch; the block is
only built from source records). -/
def richSourceEntries (sources : List Source) : List (List Char) :=
  (sources.take 5).map fmtSource

/-- `....join('\n').slice(0, 1024)`: the rich-mode source block. -/
def richSourceBlock (sources : List Source) : List Char :=
  (List.intercalate ("\n".toList) (richSourceEntries sources)).take 1024

/-- `s.url || s.title` (the result may be falsy and is then dropped by
`.filter(Boolean)`). -/
def urlOrTitle (s : Source) : List Char :=
  match s.url with
  | some u => if u = [] then (match s.title with | some t => t | none => []) else u
  | none => match s.title with | some t => t | none => []

/-- The plain-text channel reply of the message handler: mention, bold
question, answer, optional sources block, truncated to the 2000-character
platform limit. -/
def plainResponse (authorId question answer : List Char) (sources : List Source) :
    List Char :=
  let base := "<@".toList ++ authorId ++ ">\n\n**".toList ++ question ++
    "**\n\n".toList ++ answer
  let sourceLinks :=
    List.intercalate ("\n".toList)
      ((sources.map urlOrTitle).filter (fun l => l ≠ []))
  let response :=
    if 0 < sources.length ∧ sourceLinks ≠ [] then
      base ++ "\n\n📚 **Sources:**\n".toList ++ sourceLinks
    else base
  if 2000 < response.length then response.take 1997 ++ "...".toList
  else response

/-! ### Conversation tracking -/

/-- The `convoByUser` map. -/
def ConvoMap := List Char → Option (List Char)

def ConvoMap.set (m : ConvoMap) (u id : List Char) : ConvoMap :=
  fun k => if k = u then some id else m k

/-- `convoByUser.delete(userId)`. -/
def resetUser (m : ConvoMap) (u : List Char) : ConvoMap :=
  fun k => if k = u then none else m k

/-- One draw of the id generator: the outcome of
`globalThis.crypto?.randomUUID?.()` (nullish or a string) and the
stringified `Date.now()` / `Math.random()` used by the template fallback. -/
structure IdGen where
  uuid : Option (List Char)
  dateNow : List Char
  rand : List Char

/-- `` (globalThis.crypto?.randomUUID?.() || `${Date.now()}-${Math.random()}`).toString() ``. -/
def genId (g : IdGen) : List Char :=
  match g.uuid with
  | some u => if u = [] then g.dateNow ++ '-' :: g.rand else u
  | none => g.dateNow ++ '-' :: g.rand

/-- `getConversationIdForUser(userId)`; the stored map is threaded
explicitly and the generator draw is an argument. -/
def getConversationIdForUser (m : ConvoMap) (u : List Char) (g : IdGen) :
    List Char × ConvoMap :=
  match m u with
  | some id =>
    if id = [] then (genId g, m.set u (genId g)) else (id, m)
  | none => (genId g, m.set u (genId g))

/-! ### The message handler -/

/-- After `<@`: an optional `!`, one or more digits, then `>`; returns the
remainder after the mention when the regex `<@!?(\d+)>` matches here (if
the optional `!` is taken but digits-then-`>` fail after it, backtracking
to the empty `!?` also fails since `\d+` cannot match `!`). -/
def mentionTail (l : List Char) : Option (List Char) :=
  let body := if l.head? = some '!' then l.tail else l
  let ds := body.takeWhile Char.isDigit
  if ds = [] then none
  else
    let after := body.drop ds.length
    if after.head? = some '>' then some after.tail else none

theorem mentionTail_length (l rem : List Char) (h : mentionTail l = some rem) :
    rem.length ≤ l.length := by
  unfold mentionTail at h
  have hb : (if l.head? = some '!' then l.tail else l).length ≤ l.length := by
    split
    · exact l.length_tail ▸ Nat.sub_le _ _
    · exact Nat.le_refl _
  set body := (if l.head? = some '!' then l.tail else l) with hbodydef
  by_cases hds : body.takeWhile Char.isDigit = []
  · simp [hds] at h
  · simp only [hds, if_neg, if_false] at h
    split at h
    · cases h
      have h1 : (body.drop (body.takeWhile Char.isDigit).length).tail.length ≤
          (body.drop (body.takeWhile Char.isDigit).length).length :=
        (body.drop _).length_tail ▸ Nat.sub_le _ _
      have h2 : (body.drop (body.takeWhile Char.isDigit).length).length ≤ body.length := by
        rw [List.length_drop]; omega
      omega
    · exact absurd h (by simp)

/-- `msg.content.replace(/<@!?(\d+)>/g, '')`: scan left to right, removing
each non-overlapping mention match and resuming after it. -/
def stripMentions (l : List Char) : List Char :=
  match l with
  | [] => []
  | c :: rest =>
    if c = '<' ∧ rest.head? = some '@' then
      match hm : mentionTail rest.tail with
      | some rem => stripMentions rem
      | none => c :: stripMentions rest
    else c :: stripMentions rest
termination_by l.length
decreasing_by
  · have h1 := mentionTail_length rest.tail rem hm
    have h2 : rest.tail.length ≤ rest.length := rest.length_tail ▸ Nat.sub_le _ _
    simp only [List.length_cons]
    omega
  · simp
  · simp

/-- `['gm', 'gn', 'thanks', 'thank you', 'ty', 'ok', 'nice', 'lol']`. -/
def skipWords : List (List Char) :=
  ["gm", "gn", "thanks", "thank you", "ty", "ok", "nice", "lol"].map String.toList

/-- `['what', 'how', 'why', 'when', 'where', 'who', 'can', 'does,', 'is']`
— verbatim from the handler, including the stray comma inside `'does,'`. -/
def questionIndicators : List (List Char) :=
  ["what", "how", "why", "when", "where", "who", "can", "does,", "is"].map String.toList

/-- `['iaero', 'aero', 'stake', 'vault', 'token', 'reward']`. -/
def domainKeywords : List (List Char) :=
  ["iaero", "aero", "stake", "vault", "token", "reward"].map String.toList

/-- The ambient-message classifier of the `MessageCreate` handler (the
`isAutoChannel && !isMentioned` block): `true` when the message survives
every `return` and is forwarded. -/
def isLikelyQuestion (content : List Char) : Bool :=
  let text := jsToLower (jsTrim content)
  if text.length < 5 then false
  else if startsWithL text ("!".toList) || startsWithL text ("/".toList) ||
      startsWithL text (".".toList) then false
  else if skipWords.any (fun w => text == w || startsWithL text (w ++ " ".toList)) then
    false
  else
    let hasQuestion := containsL text ("?".toList) ||
      questionIndicators.any (fun w => startsWithL text (w ++ " ".toList))
    let hasKeywords := domainKeywords.any (fun k => containsL text k)
    hasQuestion || hasKeywords

/-- An inbound channel message, with the fields the handler consults. -/
structure InMsg where
  authorBot : Bool
  authorId : List Char
  content : List Char
  channelId : List Char
  mentionsBot : Bool

/-- What the `MessageCreate` handler decides to do with a message:
drop it, delete the author's conversation and reply the reset
confirmation, or forward a question to `askDocsBot`. -/
inductive MsgAction where
  | ignored : MsgAction
  | resetReply : MsgAction
  | forward : List Char → MsgAction
deriving DecidableEq

/-- The `MessageCreate` handler up to the point where a question is handed
to `askDocsBot`, together with the conversation map it leaves behind. -/
def handleMessage (autoChannels : List (List Char)) (m : ConvoMap) (msg : InMsg) :
    MsgAction × ConvoMap :=
  if msg.authorBot then (.ignored, m)
  else if jsToLower (jsTrim msg.content) = "new topic".toList then
    (.resetReply, resetUser m msg.authorId)
  else
    let isAutoChannel := autoChannels.contains msg.channelId
    let isMentioned := msg.mentionsBot
    if !isMentioned && !isAutoChannel then (.ignored, m)
    else
      let question :=
        if isMentioned then jsTrim (stripMentions msg.content) else msg.content
      if isMentioned && question == [] then (.ignored, m)
      else if isAutoChannel && !isMentioned && !(isLikelyQuestion msg.content) then
        (.ignored, m)
      else (.forward question, m)

/-! ### Claim theorems -/

theorem looksLikeFallback_of_short_or_match (cfg : GateConfig) (answer : List Char)
    (h : (jsTrim answer).length < cfg.minLen ∨ fallbackMatch (jsTrim answer) = true) :
    looksLikeFallback cfg answer = true := by
  unfold looksLikeFallback
  by_cases he : answer = []
  · simp [he]
  · simp only [he, if_false, if_neg]
    by_cases h0 : (jsTrim answer).length = 0
    · simp [h0]
    · simp only [h0, if_false, if_neg]
      by_cases hlt : (jsTrim answer).length < cfg.minLen
      · simp [hlt]
      · rcases h with h | h
        · exact absurd h hlt
        · simp [hlt, h]

/-- C1: in strict mode, the gate returns `false` for every answer whose
trimmed length is below the configured minimum `MIN_LEN`, and for every
answer whose (trimmed) text matches one of the fixed fallback phrase
patterns, regardless of the source list and of any confidence value in the
raw event. -/
theorem strict_gate_rejects_short_and_fallback (cfg : GateConfig)
    (answer : List Char) (sources : Option (List (Option Source)))
    (chosen : Option EventRec) (hstrict : cfg.strict = true)
    (h : (jsTrim answer).length < cfg.minLen ∨ fallbackMatch (jsTrim answer) = true) :
    passesStrictGate cfg answer sources chosen = false := by
  unfold passesStrictGate
  simp [hstrict, looksLikeFallback_of_short_or_match cfg answer h]

/-- Witness for C1 at the spec's own example: a long, well-sourced,
high-confidence answer that hedges with "not sure" is rejected. -/
theorem strict_gate_rejects_short_and_fallback_witness :
    passesStrictGate { strict := true, minSrc := 1, minLen := 5, minConf := mkRat 7 20 }
      ("i am not sure, please clarify your question about staking rewards".toList)
      (some [some { title := some ("a".toList), url := none, score := .nullish,
                    confidence := .nullish, similarity := .nullish },
             some { title := some ("b".toList), url := none, score := .nullish,
                    confidence := .nullish, similarity := .nullish },
             some { title := some ("c".toList), url := none, score := .nullish,
                    confidence := .nullish, similarity := .nullish }])
      (some { event := some answerTag,
              data := some { emptyData with confidence := some (mkRat 9 10) } }) = false :=
  strict_gate_rejects_short_and_fallback _ _ _ _ rfl (Or.inr (by decide))

/-- C3: with strict mode disabled the gate accepts every non-empty answer,
whatever the sources, length or confidence. -/
theorem permissive_gate_accepts (cfg : GateConfig) (answer : List Char)
    (sources : Option (List (Option Source))) (chosen : Option EventRec)
    (hstrict : cfg.strict = false) (hne : answer ≠ []) :
    passesStrictGate cfg answer sources chosen = true := by
  unfold passesStrictGate
  simp [hstrict]

/-- Witness for C3: a two-character answer with no sources and a
rock-bottom confidence is accepted once strict mode is off. -/
theorem permissive_gate_accepts_witness :
    passesStrictGate { strict := false, minSrc := 1, minLen := 40, minConf := mkRat 7 20 }
      ("hi".toList) (some [])
      (some { event := some answerTag,
              data := some { emptyData with confidence := some (mkRat 1 100) } }) = true :=
  permissive_gate_accepts _ _ _ _ rfl (by decide)

theorem findSome?_append_eq {α β : Type} (f : α → Option β) (l₁ l₂ : List α) :
    (l₁ ++ l₂).findSome? f =
      match l₁.findSome? f with
      | some b => some b
      | none => l₂.findSome? f := by
  induction l₁ with
  | nil => simp [List.findSome?]
  | cons a l ih =>
    cases h : f a <;> simp [List.findSome?, h, ih]

theorem findSome?_map_eq {α β γ : Type} (g : α → β) (f : β → Option γ) (l : List α) :
    (l.map g).findSome? f = l.findSome? (fun a => f (g a)) := by
  induction l with
  | nil => rfl
  | cons a l ih => simp [List.findSome?, ih]

/-- C2: the confidence value used by the gate is the first finite value in
the ordered candidate list (the five enumerated payload fields, then each
source's score-like `??` chain); a raw value above 1 is divided by 100
while 1 itself is kept; and — once strict mode is on and the textual and
source checks pass — the gate rejects exactly when such a value exists and
its normalized form is below `MIN_CONF`; with no finite value anywhere the
confidence check never rejects. -/
theorem confidence_extraction_and_gate :
    (∀ chosen : Option EventRec,
      extractConfidence chosen =
        (payloadCands chosen ++
          (sourcesOf chosen).map (fun s => s.bind srcNum)).findSome? id) ∧
    (normalizeConfidence (some 85) = some (85 / 100) ∧
     normalizeConfidence (some 1) = some 1) ∧
    (∀ (cfg : GateConfig) (answer : List Char)
       (sources : Option (List (Option Source))) (chosen : Option EventRec),
      cfg.strict = true →
      looksLikeFallback cfg answer = false →
      ¬(0 < cfg.minSrc ∧ (srcFiltered sources).length < cfg.minSrc) →
      (passesStrictGate cfg answer sources chosen = false ↔
        ∃ v, extractConfidence chosen = some v ∧
          (if 1 < v then v / 100 else v) < cfg.minConf)) := by
  refine ⟨?_, ⟨?_, ?_⟩, ?_⟩
  · intro chosen
    unfold extractConfidence
    rw [findSome?_append_eq, findSome?_map_eq]
    cases h : (payloadCands chosen).findSome? id <;> simp [h]
  · simp only [normalizeConfidence, Option.map_some']
    norm_num
  · simp [normalizeConfidence]
  · intro cfg answer sources chosen hstrict hfb hsrc
    unfold passesStrictGate
    simp only [hstrict, Bool.true_eq_false, if_false, hfb, if_neg hsrc]
    cases hx : extractConfidence chosen with
    | none => simp [normalizeConfidence]
    | some v =>
      simp only [normalizeConfidence, Option.map_some']
      by_cases hc : (if 1 < v then v / 100 else v) < cfg.minConf
      · simp only [if_pos hc]
        exact ⟨fun _ => ⟨v, rfl, hc⟩, fun _ => rfl⟩
      · simp only [if_neg hc]
        constructor
        · intro h; cases h
        · rintro ⟨v', hv', hlt⟩
          cases hv'
          exact absurd hlt hc

/-- Witness for C2 at the spec's example: raw confidence 0.2 against a
configured minimum of 0.35 is rejected even though the text and source
checks pass. -/
theorem confidence_extraction_and_gate_witness :
    passesStrictGate { strict := true, minSrc := 0, minLen := 1, minConf := mkRat 7 20 }
      ("okay answer".toList) none
      (some { event := some answerTag,
              data := some { emptyData with confidence := some (mkRat 1 5) } }) = false :=
  (confidence_extraction_and_gate.2.2 _ _ _ _ rfl (by decide) (by decide)).mpr
    ⟨mkRat 1 5, by decide, by decide⟩

/-- C5: every failure of the outbound ask — a rejected fetch (network
error or the 20-second abort), a non-success HTTP status, or an
unparseable body — is caught and turned into the uniform no-answer result
instead of escaping to the caller. -/
theorem askDocsBot_failures_return_noAnswer (cfg : GateConfig) (status : Nat)
    (body : List Char) :
    askDocsBot cfg .networkError = noAnswerResult ∧
    askDocsBot cfg (.httpError status) = noAnswerResult ∧
    askDocsBot cfg (.success body (.error ())) = noAnswerResult := by
  refine ⟨rfl, rfl, ?_⟩
  by_cases hb : (body == [] || body == "null".toList) = true <;>
    simp [askDocsBot, hb]

/-- Counterexample to C6: on an empty-or-`"null"` body the resolved value
is byte-for-byte the same record a hard failure (here: a network error)
produces, so the caller receives no distinct signal. -/
theorem nullBody_result_equals_hard_failure :
    askDocsBot defaultCfg (.success ("null".toList) (.error ())) =
      askDocsBot defaultCfg .networkError := by decide

/-- C6 as amended: an empty or literal-`"null"` body is handled on a
dedicated branch that returns normally (it is not raised as an error), but
the value returned is the same uniform no-answer record
(`ok = false`, empty answer, no sources) that hard failures produce. -/
theorem nullBody_returns_noAnswer (cfg : GateConfig)
    (p p' : Except Unit (List (Option EventRec))) :
    askDocsBot cfg (.success [] p) = noAnswerResult ∧
    askDocsBot cfg (.success ("null".toList) p') = noAnswerResult :=
  ⟨rfl, rfl⟩

/-- C7: event selection prefers the first record tagged `lookup_answer`,
then the first tagged `answer`, then the first array element; an empty
array selects nothing, the answer then defaults to the empty string (and
is trimmed whenever present) and the sources default to the empty list
whenever the field is missing or not a list. -/
theorem event_selection_and_defaults :
    (∀ (events : List (Option EventRec)) (e : Option EventRec),
      events.find? (fun x => hasTag x lookupTag) = some e →
      chooseEvent events = e) ∧
    (∀ (events : List (Option EventRec)) (e : Option EventRec),
      events.find? (fun x => hasTag x lookupTag) = none →
      events.find? (fun x => hasTag x answerTag) = some e →
      chooseEvent events = e) ∧
    (∀ (ev : Option EventRec) (rest : List (Option EventRec)),
      (ev :: rest).find? (fun x => hasTag x lookupTag) = none →
      (ev :: rest).find? (fun x => hasTag x answerTag) = none →
      chooseEvent (ev :: rest) = ev) ∧
    (chooseEvent [] = none ∧ extractAnswer none = [] ∧ extractSources none = []) ∧
    (∀ rec : EventRec, rec.data.bind (fun d => d.sources) = none →
      extractSources (some rec) = []) ∧
    (∀ (rec : EventRec) (d : EventData) (a : List Char),
      rec.data = some d → d.answer = some a →
      extractAnswer (some rec) = jsTrim a) ∧
    (∀ (rec : EventRec) (d : EventData),
      rec.data = some d → d.answer = none →
      extractAnswer (some rec) = []) := by
  refine ⟨?_, ?_, ?_, ⟨rfl, rfl, rfl⟩, ?_, ?_, ?_⟩
  · intro events e h
    unfold chooseEvent
    rw [h]
  · intro events e h1 h2
    unfold chooseEvent
    rw [h1, h2]
  · intro ev rest h1 h2
    unfold chooseEvent
    rw [h1, h2]
    simp
  · intro rec h
    unfold extractSources
    simp [h]
  · intro rec d a h1 h2
    unfold extractAnswer
    simp [h1, h2]
  · intro rec d h1 h2
    unfold extractAnswer
    simp [h1, h2]

/-- Witness for C7: a concrete two-event array where the later
`lookup_answer` event is chosen over the earlier `answer` event. -/
theorem event_selection_and_defaults_witness :
    chooseEvent
      [some { event := some answerTag, data := none },
       some { event := some lookupTag,
              data := some { emptyData with answer := some (" hi ".toList) } }] =
      some { event := some lookupTag,
             data := some { emptyData with answer := some (" hi ".toList) } } :=
  event_selection_and_defaults.1 _ _ (by decide)

/-- C8: the rich-embed description is at most 4000 characters, the
rich-mode source block lists at most 5 sources and is at most 1024
characters, and the plain-text channel reply is at most 2000 characters
after truncation. -/
theorem formatter_respects_limits :
    (∀ answer : List Char, (richDescription answer).length ≤ 4000) ∧
    (∀ sources : List Source, (richSourceEntries sources).length ≤ 5) ∧
    (∀ sources : List Source, (richSourceBlock sources).length ≤ 1024) ∧
    (∀ (authorId question answer : List Char) (sources : List Source),
      (plainResponse authorId question answer sources).length ≤ 2000) := by
  refine ⟨?_, ?_, ?_, ?_⟩
  · intro a
    simp only [richDescription, List.length_take]
    omega
  · intro s
    simp only [richSourceEntries, List.length_map, List.length_take]
    omega
  · intro s
    simp only [richSourceBlock, List.length_take]
    omega
  · intro authorId question answer sources
    have key : ∀ resp : List Char,
        (if 2000 < resp.length then resp.take 1997 ++ "...".toList else resp).length ≤ 2000 := by
      intro resp
      by_cases hgt : 2000 < resp.length
      · rw [if_pos hgt, List.length_append, List.length_take]
        have h3 : ("...".toList).length = 3 := rfl
        rw [h3]
        omega
      · rw [if_neg hgt]
        omega
    exact key _

/-- C9: for a user with no stored conversation id, the tracker generates a
non-empty id and stores it; an immediately repeated call returns the same
id and leaves the map unchanged; after a reset deletes the entry, the next
call returns (and stores) the id freshly drawn from the generator. -/
theorem convo_tracker_fresh_stable_reset (m : ConvoMap) (u : List Char)
    (g g2 g3 : IdGen) (h : m u = none) :
    (getConversationIdForUser m u g).1 ≠ [] ∧
    (getConversationIdForUser m u g).2 u = some (getConversationIdForUser m u g).1 ∧
    getConversationIdForUser (getConversationIdForUser m u g).2 u g2 =
      ((getConversationIdForUser m u g).1, (getConversationIdForUser m u g).2) ∧
    resetUser (getConversationIdForUser m u g).2 u u = none ∧
    (getConversationIdForUser (resetUser (getConversationIdForUser m u g).2 u) u g3).1 =
      genId g3 := by
  have hne : genId g ≠ [] := by
    unfold genId
    cases hu : g.uuid with
    | none => simp
    | some x =>
      by_cases hx : x = [] <;> simp [hx]
  have h1 : getConversationIdForUser m u g = (genId g, m.set u (genId g)) := by
    unfold getConversationIdForUser
    rw [h]
  rw [h1]
  refine ⟨hne, ?_, ?_, ?_, ?_⟩
  · simp [ConvoMap.set]
  · unfold getConversationIdForUser
    simp [ConvoMap.set, hne]
  · simp [resetUser]
  · unfold getConversationIdForUser
    simp [resetUser]

/-- Witness for C9 on the empty map with concrete generator draws. -/
theorem convo_tracker_fresh_stable_reset_witness :
    (getConversationIdForUser (fun _ => none) ("u".toList)
        { uuid := some ("id-a".toList), dateNow := "1".toList, rand := "2".toList }).1 ≠ [] ∧
    (getConversationIdForUser (fun _ => none) ("u".toList)
        { uuid := some ("id-a".toList), dateNow := "1".toList, rand := "2".toList }).2
        ("u".toList) =
      some (getConversationIdForUser (fun _ => none) ("u".toList)
        { uuid := some ("id-a".toList), dateNow := "1".toList, rand := "2".toList }).1 ∧
    getConversationIdForUser
        (getConversationIdForUser (fun _ => none) ("u".toList)
          { uuid := some ("id-a".toList), dateNow := "1".toList, rand := "2".toList }).2
        ("u".toList) { uuid := none, dateNow := "3".toList, rand := "4".toList } =
      ((getConversationIdForUser (fun _ => none) ("u".toList)
          { uuid := some ("id-a".toList), dateNow := "1".toList, rand := "2".toList }).1,
       (getConversationIdForUser (fun _ => none) ("u".toList)
          { uuid := some ("id-a".toList), dateNow := "1".toList, rand := "2".toList }).2) ∧
    resetUser
        (getConversationIdForUser (fun _ => none) ("u".toList)
          { uuid := some ("id-a".toList), dateNow := "1".toList, rand := "2".toList }).2
        ("u".toList) ("u".toList) = none ∧
    (getConversationIdForUser
        (resetUser
          (getConversationIdForUser (fun _ => none) ("u".toList)
            { uuid := some ("id-a".toList), dateNow := "1".toList, rand := "2".toList }).2
          ("u".toList))
        ("u".toList) { uuid := some ("id-b".toList), dateNow := "5".toList, rand := "6".toList }).1 =
      genId { uuid := some ("id-b".toList), dateNow := "5".toList, rand := "6".toList } :=
  convo_tracker_fresh_stable_reset _ _ _ _ _ rfl

/-- C10: a non-bot message whose trimmed, lowercased content is exactly
`new topic` takes the reset branch before any mention or auto-channel
filtering — whatever the channel and whether or not the bot is mentioned —
deleting exactly the author's conversation entry, replying the reset
confirmation, and forwarding no question. -/
theorem new_topic_resets_before_filters (autoChannels : List (List Char))
    (m : ConvoMap) (msg : InMsg) (v : List Char)
    (hbot : msg.authorBot = false)
    (hcontent : jsToLower (jsTrim msg.content) = "new topic".toList) :
    handleMessage autoChannels m msg = (.resetReply, resetUser m msg.authorId) ∧
    resetUser m msg.authorId msg.authorId = none ∧
    (v ≠ msg.authorId → resetUser m msg.authorId v = m v) ∧
    (∀ q, (handleMessage autoChannels m msg).1 ≠ .forward q) := by
  have h1 : handleMessage autoChannels m msg = (.resetReply, resetUser m msg.authorId) := by
    unfold handleMessage
    rw [hbot, hcontent]
    simp
  refine ⟨h1, ?_, ?_, ?_⟩
  · simp [resetUser]
  · intro hv
    simp [resetUser, hv]
  · intro q
    rw [h1]
    simp

/-- Witness for C10: an uppercase, whitespace-padded `new topic` in a
non-auto channel with the bot mentioned still resets only the author. -/
theorem new_topic_resets_before_filters_witness :
    handleMessage [("chan".toList)]
        (fun k => if k = "u2".toList then some ("cid2".toList)
                  else if k = "u1".toList then some ("cid1".toList) else none)
        { authorBot := false, authorId := "u1".toList,
          content := "  NEW Topic ".toList, channelId := "other".toList,
          mentionsBot := true } =
      (.resetReply,
        resetUser
          (fun k => if k = "u2".toList then some ("cid2".toList)
                    else if k = "u1".toList then some ("cid1".toList) else none)
          ("u1".toList)) ∧
    resetUser
        (fun k => if k = "u2".toList then some ("cid2".toList)
                  else if k = "u1".toList then some ("cid1".toList) else none)
        ("u1".toList) ("u1".toList) = none ∧
    resetUser
        (fun k => if k = "u2".toList then some ("cid2".toList)
                  else if k = "u1".toList then some ("cid1".toList) else none)
        ("u1".toList) ("u2".toList) =
      (fun k => if k = "u2".toList then some ("cid2".toList)
                else if k = "u1".toList then some ("cid1".toList) else none)
        ("u2".toList) ∧
    (handleMessage [("chan".toList)]
        (fun k => if k = "u2".toList then some ("cid2".toList)
                  else if k = "u1".toList then some ("cid1".toList) else none)
        { authorBot := false, authorId := "u1".toList,
          content := "  NEW Topic ".toList, channelId := "other".toList,
          mentionsBot := true }).1 ≠ .forward ("hello".toList) := by
  have h := new_topic_resets_before_filters [("chan".toList)]
    (fun k => if k = "u2".toList then some ("cid2".toList)
              else if k = "u1".toList then some ("cid1".toList) else none)
    { authorBot := false, authorId := "u1".toList,
      content := "  NEW Topic ".toList, channelId := "other".toList,
      mentionsBot := true }
    ("u2".toList) rfl (by decide)
  exact ⟨h.1, h.2.1, h.2.2.1 (by decide), h.2.2.2 _⟩

/-- C4 (code bug): the ambient classifier's interrogative list contains
the typo `'does,'`, so the message `does it compound daily` — which
passes every rejection filter and per the claim starts with the
interrogative `does` plus a space — is ignored instead of forwarded. -/
theorem does_message_not_forwarded :
    (handleMessage [("c1".toList)] (fun _ => none)
        { authorBot := false, authorId := "u1".toList,
          content := "does it compound daily".toList, channelId := "c1".toList,
          mentionsBot := false }).1 = .ignored ∧
    isLikelyQuestion ("does it compound daily".toList) = false := by
  constructor
  · decide
  · decide
